import Mathlib

/-
Verification of the regression service in `my-regression-app`.

The program under study is a small Python web service
(`code/myfit.py`, `code/lambda_function.py`, and a self-contained duplicate
`lambda_function.py` at the repository root) that fits degree-1 and degree-2
polynomials to paired samples and reports an RMSE, behind a Flask HTTP
front end and an AWS-Lambda-style event handler.

Embedding conventions:
- Python runtime values reaching the core are modelled by `PyVal`;
  a Python float is a `PyFloat` (an exact rational, or NaN/±inf).
  IEEE-754 rounding is abstracted away: all numeric work is exact over `ℚ`.
- Raised exceptions become `Except PyError _`; `ValueError` and
  `RuntimeError` are the only exception classes the core raises.
- The numpy / sklearn library functions used by the core
  (`numpy.polynomial.polynomial.polyfit`, `polyval`,
  `sklearn.metrics.mean_squared_error`, `np.sqrt`) are modelled from their
  documented semantics; each model carries a doc comment with the details.
- The code stores `rmse = np.sqrt(mse)`.  Since `sqrt` is injective on the
  nonnegative reals we carry the (rational) mean squared error in
  `FitResult.mse` and expose the stored float as
  `FitResult.RMSE = Real.sqrt mse`.
-/

namespace RegressionApp

/-- A Python `float`: a finite value (exact rational) or one of the
IEEE special values NaN, +inf, -inf, all of which are `float` instances. -/
inductive PyFloat : Type
| finite (q : ℚ)
| nan
| inf
| ninf
deriving DecidableEq, Repr

/-- A Python runtime value as it can reach the regression core: `None`,
`bool`, `int`, `float`, `str`, `list`, or `dict` (the shapes producible by
`json.loads` plus everything the validation code distinguishes). -/
inductive PyVal : Type
| none
| bool (b : Bool)
| int (n : ℤ)
| float (f : PyFloat)
| str (s : String)
| list (l : List PyVal)
| dict (l : List (String × PyVal))
deriving Repr

/-- Python's `isinstance(val, (int, float))` as used by the validation in
`myfit.py` lines 26 and 61.  Crucially `bool` is a subclass of `int` in
Python, so booleans pass this check; NaN and the infinities are `float`
instances and pass as well. -/
def isinstance_int_float : PyVal → Bool
| .bool _ => true
| .int _ => true
| .float _ => true
| _ => false

/-- Whether a value is a number (in the `isinstance` sense) that is also a
finite real: the inputs on which the numpy/sklearn pipeline completes
without raising. -/
def isFiniteNumber : PyVal → Bool
| .bool _ => true
| .int _ => true
| .float (.finite _) => true
| _ => false

/-- Numeric value of a (finite) Python number, as numpy coerces it to
float64: `True`/`False` become 1/0, ints and finite floats their value.
Only applied under an `isFiniteNumber` guard; other constructors map to a
junk value 0 that is never reached. -/
def toRat : PyVal → ℚ
| .bool b => if b then 1 else 0
| .int n => (n : ℚ)
| .float (.finite q) => q
| _ => 0

/-- `val is None`. -/
def PyVal.isNone : PyVal → Bool
| .none => true
| _ => false

/-- Model of `numpy.polynomial.polynomial.polyval(x, c)` at a single point:
the coefficient list `c` is read low-to-high degree,
`c[0] + c[1]*t + c[2]*t^2 + ...` (numpy evaluates by Horner's scheme). -/
def polyval (c : List ℚ) (t : ℚ) : ℚ :=
  match c with
  | [] => 0
  | a :: rest => a + t * polyval rest t

/-- Model of `sklearn.metrics.mean_squared_error(y_true, y_pred)`:
the mean of the squared residuals.  (On inputs containing NaN/inf the real
function raises `ValueError` from its finiteness check; the regression code
below never reaches this call with non-finite data because that case is
diverted to the `RuntimeError` branch first.) -/
def mean_squared_error (yTrue yPred : List ℚ) : ℚ :=
  (List.zipWith (fun u v => (u - v) ^ 2) yTrue yPred).sum / (yTrue.length : ℚ)

/-- All elements of the list are equal (used to detect the rank-deficient
configuration of the degree-1 design matrix). -/
def allEqual : List ℚ → Bool
| [] => true
| a :: t => t.all (fun b => b = a)

/-- The distinct values occurring in a list (order: first occurrence from
the tail up; only the length of the result and, when it is 2, the set of
its elements are used, both order-independent). -/
def distinctVals : List ℚ → List ℚ
| [] => []
| a :: t =>
  let d := distinctVals t
  if a ∈ d then d else a :: d

/-- Model of `numpy.polynomial.polynomial.polyfit(x, y, 1)`, returning the
coefficients `(c0, c1)` of `c0 + c1*t` ordered low-to-high degree, as numpy
documents.

numpy solves the least-squares problem on the column-scaled Vandermonde
matrix with `np.linalg.lstsq` (see `numpy.polynomial.polyutils._fit`):
columns of `A = [1, x]` are divided by their Euclidean norms (a zero norm is
replaced by 1), `lstsq` returns the minimum-norm least-squares solution in
the scaled coordinates, and the result is scaled back.  On a rank-deficient
system it emits only a `RankWarning` — it does NOT raise.  With exact
rationals (the float `rcond` cutoff abstracted to exact rank):
- `x` not all equal: the system has full column rank and the unique
  least-squares solution is the textbook closed form.
- `x` all equal to `a ≠ 0`: the two scaled columns coincide up to sign, and
  the minimum-norm solution works out to `c0 = ȳ/2`, `c1 = ȳ/(2a)`
  (predicting `p(a) = ȳ`, the least-squares optimum).
- `x` all equal to `0`: the second column is zero, its zero norm is replaced
  by 1, and the minimum-norm solution is `c0 = ȳ`, `c1 = 0`. -/
def polyfit1 (xs ys : List ℚ) : ℚ × ℚ :=
  let n : ℚ := (xs.length : ℚ)
  let sy := ys.sum
  if allEqual xs then
    let a := xs.headD 0
    let ybar := sy / n
    if a = 0 then (ybar, 0) else (ybar / 2, ybar / (2 * a))
  else
    let sx := xs.sum
    let sxx := (xs.map (fun t => t ^ 2)).sum
    let sxy := (List.zipWith (fun u v => u * v) xs ys).sum
    let d := n * sxx - sx ^ 2
    let c1 := (n * sxy - sx * sy) / d
    ((sy - c1 * sx) / n, c1)

/-- Determinant of the 3×3 matrix with rows `(a b c)`, `(d e f)`, `(g h i)`. -/
def det3 (a b c d e f g h i : ℚ) : ℚ :=
  a * (e * i - f * h) - b * (d * i - f * g) + c * (d * h - e * g)

/-- Mean of the `y`-values at the sample points whose `x`-value equals `a`. -/
def meanAt (xs ys : List ℚ) (a : ℚ) : ℚ :=
  let ps := (xs.zip ys).filter (fun p => p.1 = a)
  (ps.map (fun p => p.2)).sum / (ps.length : ℚ)

/-- Model of `numpy.polynomial.polynomial.polyfit(x, y, 2)`, returning
`(c0, c1, c2)` of `c0 + c1*t + c2*t^2` ordered low-to-high degree.
Same numpy algorithm as `polyfit1` (column-scaled `lstsq`, minimum-norm on
rank deficiency, never raising on finite data).

With exact arithmetic the scaled column norms enter the minimum-norm
solution only through their squares `s = (n, Σx², Σx⁴)`, all rational, and
the minimum-(scaled-)norm least-squares solution is the `S`-weighted
minimum-norm element of the affine set of least-squares solutions:
- ≥ 3 distinct `x`-values: full column rank; unique solution of the normal
  equations `(AᵀA)c = Aᵀy`, here by Cramer's rule.
- exactly 2 distinct values `a, b`: least-squares solutions are the line
  through `(a, ȳ_a)`, `(b, ȳ_b)` (`ȳ_v` = mean of `y` at `x = v`) plus the
  null direction `cv = (ab, -(a+b), 1)`; the `S`-weighted minimum subtracts
  the `S`-projection onto `cv`.
- 1 distinct value `a ≠ 0`: minimising over the 2-dimensional null space
  gives `c = (ȳ/3, ȳ/(3a), ȳ/(3a²))` (predicting `p(a) = ȳ`);
  for `a = 0` the zero-norm columns give `c = (ȳ, 0, 0)`. -/
def polyfit2 (xs ys : List ℚ) : ℚ × ℚ × ℚ :=
  let n : ℚ := (xs.length : ℚ)
  let sy := ys.sum
  let dv := distinctVals xs
  if 3 ≤ dv.length then
    let sx := xs.sum
    let sxx := (xs.map (fun t => t ^ 2)).sum
    let sx3 := (xs.map (fun t => t ^ 3)).sum
    let sx4 := (xs.map (fun t => t ^ 4)).sum
    let sxy := (List.zipWith (fun u v => u * v) xs ys).sum
    let sx2y := (List.zipWith (fun u v => u ^ 2 * v) xs ys).sum
    let det := det3 n sx sxx sx sxx sx3 sxx sx3 sx4
    let c0 := det3 sy sx sxx sxy sxx sx3 sx2y sx3 sx4 / det
    let c1 := det3 n sy sxx sx sxy sx3 sxx sx2y sx4 / det
    let c2 := det3 n sx sy sx sxx sxy sxx sx3 sx2y / det
    (c0, c1, c2)
  else if dv.length = 2 then
    let a := dv.headD 0
    let b := (dv.drop 1).headD 0
    let ma := meanAt xs ys a
    let mb := meanAt xs ys b
    let c1p := (mb - ma) / (b - a)
    let c0p := ma - c1p * a
    let sxx := (xs.map (fun t => t ^ 2)).sum
    let sx4 := (xs.map (fun t => t ^ 4)).sum
    let lam := (n * (a * b) * c0p - sxx * (a + b) * c1p) /
      (n * (a * b) ^ 2 + sxx * (a + b) ^ 2 + sx4)
    (c0p - lam * (a * b), c1p + lam * (a + b), -lam)
  else
    let a := xs.headD 0
    let ybar := sy / n
    if a = 0 then (ybar, 0, 0) else (ybar / 3, ybar / (3 * a), ybar / (3 * a ^ 2))

/-- The result dict `{'params': [...], 'RMSE': rmse}` of a successful fit.
The Python dict stores `rmse = np.sqrt(mse)`; we carry the exact `mse` and
expose the stored value through `FitResult.RMSE`. -/
structure FitResult : Type where
  params : List ℚ
  mse : ℚ
deriving DecidableEq, Repr

/-- The RMSE float the Python dict actually stores: `np.sqrt` of the mean
squared error.  (The short-circuit paths store the literal `0 = sqrt 0`.) -/
noncomputable def FitResult.RMSE (r : FitResult) : ℝ :=
  Real.sqrt (r.mse : ℝ)

/-- The two exception classes the core raises: `ValueError` from validation
(the spec's InvalidInput) and `RuntimeError` from the wrapped fit
computation (the spec's ComputationError). -/
inductive PyError : Type
| valueError (msg : String)
| runtimeError (msg : String)
deriving DecidableEq, Repr

def listsMsg : String := "Input arguments 'x' and 'y' must be lists."

def numbersMsg : String := "Input lists 'x' and 'y' must contain numbers."

def lengthMsg : String := "Input lists 'x' and 'y' must have the same length."

/-- The three validation checks shared verbatim by `linear_regression`
(myfit.py lines 23-31) and `quadratic_regression` (lines 58-66): the
arguments must be lists, every element an `(int, float)` instance, and the
lengths equal.  On success the checked lists pass through unchanged. -/
def validate (x y : PyVal) : Except PyError (List PyVal × List PyVal) :=
  match x, y with
  | .list xl, .list yl =>
    if ¬(xl.all isinstance_int_float = true ∧ yl.all isinstance_int_float = true) then
      .error (.valueError numbersMsg)
    else if xl.length ≠ yl.length then
      .error (.valueError lengthMsg)
    else
      .ok (xl, yl)
  | _, _ => .error (.valueError listsMsg)

/-- The message of the `RuntimeError` re-raised by the linear try/except
block.  (The code formats the caught exception into the message; we keep
the identifying prefix and abstract the formatted cause.) -/
def linearErrMsg : String := "Error during linear regression"

/-- The message of the `RuntimeError` re-raised by the quadratic block. -/
def quadraticErrMsg : String := "Error during quadratic regression"

/-- `myfit.linear_regression(x, y)` (identical to the copy embedded in the
root `lambda_function.py` up to log/message formatting): validation, the
`len(x) < 2` short-circuit returning `{'params': [0, 0], 'RMSE': 0}`, then
`p1, p0 = polyfit(x, y, 1)` — note the unpacking order — followed by
`y_predicted = polyval(x, [p0, p1])` and `rmse = sqrt(mse(y, y_predicted))`,
returning `{'params': [p0, p1], 'RMSE': rmse}`.  Since numpy returns
coefficients low-to-high, `p0` is the slope and `p1` the intercept, so the
returned list is `[slope, intercept]`.  Any exception inside the try block
(numpy's `LinAlgError` on non-finite data, or sklearn's finiteness check)
is re-raised as `RuntimeError`; on finite data `polyfit` never raises (rank
deficiency only warns), so the try block fails exactly on non-finite
elements. -/
def linear_regression (x y : PyVal) : Except PyError FitResult :=
  match validate x y with
  | .error e => .error e
  | .ok (xl, yl) =>
    if xl.length < 2 then .ok ⟨[0, 0], 0⟩
    else if ¬(xl.all isFiniteNumber = true ∧ yl.all isFiniteNumber = true) then
      .error (.runtimeError linearErrMsg)
    else
      let xs := xl.map toRat
      let ys := yl.map toRat
      let c := polyfit1 xs ys
      let params := [c.2, c.1]
      let y_predicted := xs.map (polyval params)
      .ok ⟨params, mean_squared_error ys y_predicted⟩

/-- `myfit.quadratic_regression(x, y)`: same shape with the `len(x) < 3`
short-circuit returning `{'params': [0, 0, 0], 'RMSE': 0}` and
`p2, p1, p0 = polyfit(x, y, 2)`, so with numpy's low-to-high order the
returned list `[p0, p1, p2]` is `[c2, c1, c0]` — reversed. -/
def quadratic_regression (x y : PyVal) : Except PyError FitResult :=
  match validate x y with
  | .error e => .error e
  | .ok (xl, yl) =>
    if xl.length < 3 then .ok ⟨[0, 0, 0], 0⟩
    else if ¬(xl.all isFiniteNumber = true ∧ yl.all isFiniteNumber = true) then
      .error (.runtimeError quadraticErrMsg)
    else
      let xs := xl.map toRat
      let ys := yl.map toRat
      let c := polyfit2 xs ys
      let params := [c.2.2, c.2.1, c.1]
      let y_predicted := xs.map (polyval params)
      .ok ⟨params, mean_squared_error ys y_predicted⟩

/-- Whether a fit call succeeded (returned a result dict rather than
raising). -/
def fitIsOk : Except PyError FitResult → Bool
| .ok _ => true
| .error _ => false

/-- Spec-side polynomial evaluation, written independently of the Horner
model: `Σ_k c[k]·t^k` over the coefficient list read low-to-high degree. -/
def specEval (c : List ℚ) (t : ℚ) : ℚ :=
  ∑ k ∈ Finset.range c.length, c.getD k 0 * t ^ k

/-- Spec-side mean squared error of a coefficient list against the samples:
`mean((yᵢ − Σ_k c[k]·xᵢ^k)²)`. -/
def specMSE (c : List ℚ) (xs ys : List ℚ) : ℚ :=
  ((xs.zip ys).map (fun p => (p.2 - specEval c p.1) ^ 2)).sum / (xs.length : ℚ)

/-- A JSON value as produced by parsing a request body.  Numbers are exact
rationals (Python's distinction between `int` and `float` literals, and its
nonstandard acceptance of `NaN`/`Infinity` literals, do not affect any
behaviour modelled here: both parse to values that pass the same
`isinstance` check and carry the same numeric value). -/
inductive Json : Type
| null
| bool (b : Bool)
| num (q : ℚ)
| str (s : String)
| arr (l : List Json)
| obj (l : List (String × Json))
deriving Repr

/-- Python truthiness of a parsed JSON value (`not data`): `None`, `False`,
`0`, `""`, `[]` and the empty dict are falsy. -/
def Json.falsy : Json → Bool
| .null => true
| .bool b => !b
| .num q => q = 0
| .str s => s = ""
| .arr l => l.isEmpty
| .obj l => l.isEmpty

/-- The Python object a parsed JSON value denotes. -/
def jsonToPyVal : Json → PyVal
| .null => .none
| .bool b => .bool b
| .num q => .float (.finite q)
| .str s => .str s
| .arr l => .list (l.attach.map (fun p => jsonToPyVal p.1))
| .obj l => .dict (l.attach.map (fun p => (p.1.1, jsonToPyVal p.1.2)))
decreasing_by
· simp_wf
  have h := List.sizeOf_lt_of_mem p.2
  omega
· simp_wf
  have h := List.sizeOf_lt_of_mem p.2
  obtain ⟨⟨k, v⟩, hm⟩ := p
  simp only at h ⊢
  simp [Prod.mk.sizeOf_spec] at h
  omega

/-- `data.get(k)` on a parsed JSON object, as a Python value: the value
under the key (the last occurrence wins, as in a Python dict built by
`json.loads`), or `None` when the key is absent. -/
def getPy (kvs : List (String × Json)) (k : String) : PyVal :=
  match (kvs.reverse).lookup k with
  | some j => jsonToPyVal j
  | Option.none => PyVal.none

/-- The JSON-serialisable dict a transport adapter puts in a response body:
either a fit result `{'params': ..., 'RMSE': ...}` or `{'error': msg}`.
Both adapters serialise such a dict (Flask via `jsonify`, the handler via
`json.dumps`); we compare responses at this dict level, where distinct
dicts always serialise to distinct bodies. -/
inductive Payload : Type
| result (r : FitResult)
| error (msg : String)
deriving DecidableEq, Repr

/-- A transport response: HTTP status code plus the body dict.  (The
handler also attaches a constant `Content-Type: application/json` header,
not modelled.) -/
structure Response : Type where
  statusCode : Nat
  payload : Payload
deriving DecidableEq, Repr

/-- The except-ladder of the Flask routes (`code/lambda_function.py` lines
30-38 and 58-66): `ValueError` → 400 with `str(e)`, `RuntimeError` → 500
with `str(e)`, success → 200 with the result dict. -/
def flaskRespond : Except PyError FitResult → Response
| .ok r => ⟨200, .result r⟩
| .error (.valueError m) => ⟨400, .error m⟩
| .error (.runtimeError m) => ⟨500, .error m⟩

/-- The except-ladder of the Lambda handler (`code/lambda_function.py`
lines 107-127): `except (ValueError, KeyError)` → 400 with `str(e)`,
`except RuntimeError` → 500 with `str(e)`, success → 200. -/
def handlerRespond : Except PyError FitResult → Response
| .ok r => ⟨200, .result r⟩
| .error (.valueError m) => ⟨400, .error m⟩
| .error (.runtimeError m) => ⟨500, .error m⟩

def bodyJsonMsg : String := "Request body must be JSON"

def missingXYMsg : String := "Request body must contain \"x\" and \"y\" arrays."

/-- `str(AttributeError)` raised by `data.get(...)` when `data` is not a
dict, e.g. `'list' object has no attribute 'get'`.  (JSON numbers parse to
`int` or `float` depending on the literal; the type name is abstracted as
`'float'` — no claim examines this branch.) -/
def noAttrGetMsg : Json → String
| .null => "'NoneType' object has no attribute 'get'"
| .bool _ => "'bool' object has no attribute 'get'"
| .num _ => "'float' object has no attribute 'get'"
| .str _ => "'str' object has no attribute 'get'"
| .arr _ => "'list' object has no attribute 'get'"
| .obj _ => ""

/-- The Flask route `POST /linear` (`code/lambda_function.py` lines 12-38),
as a function of the value `request.get_json()` parsed from the body:
a falsy parsed body is rejected with 400 `Request body must be JSON`
before anything else; then `data.get('x')`/`data.get('y')` (raising
`AttributeError` → generic 500 when `data` is not a dict); a missing or
null `x` or `y` gives 400; otherwise the outcome of
`linear_regression(x, y)` is mapped by the except-ladder. -/
def linear (data : Json) : Response :=
  if data.falsy = true then ⟨400, .error bodyJsonMsg⟩
  else
    match data with
    | .obj kvs =>
      let xv := getPy kvs "x"
      let yv := getPy kvs "y"
      if xv.isNone || yv.isNone then ⟨400, .error missingXYMsg⟩
      else flaskRespond (linear_regression xv yv)
    | j => ⟨500, .error ("Internal server error: " ++ noAttrGetMsg j)⟩

/-- The Flask route `POST /quadratic` (lines 40-66), identical shape. -/
def quadratic (data : Json) : Response :=
  if data.falsy = true then ⟨400, .error bodyJsonMsg⟩
  else
    match data with
    | .obj kvs =>
      let xv := getPy kvs "x"
      let yv := getPy kvs "y"
      if xv.isNone || yv.isNone then ⟨400, .error missingXYMsg⟩
      else flaskRespond (quadratic_regression xv yv)
    | j => ⟨500, .error ("Internal server error: " ++ noAttrGetMsg j)⟩

/-- Skip JSON whitespace. -/
def skipWs : List Char → List Char
| [] => []
| c :: r => if c = ' ' ∨ c = '\t' ∨ c = '\n' ∨ c = '\r' then skipWs r else c :: r

/-- JSON string escape characters (`\uXXXX` escapes are not modelled; none
of the behaviour the claims exercise involves them). -/
def escChar : Char → Option Char
| '\x22' => some '\x22'
| '\\' => some '\\'
| '/' => some '/'
| 'n' => some '\n'
| 't' => some '\t'
| 'r' => some '\r'
| 'b' => some '\x08'
| 'f' => some '\x0c'
| _ => Option.none

/-- Scan a JSON string body after the opening quote, accumulating decoded
characters until the closing quote. -/
def parseStrAux : List Char → List Char → Option (String × List Char)
| _, [] => Option.none
| acc, '\x22' :: r => some (String.mk acc.reverse, r)
| acc, '\\' :: c :: r =>
  match escChar c with
  | some d => parseStrAux (d :: acc) r
  | Option.none => Option.none
| acc, c :: r => parseStrAux (c :: acc) r

/-- Decimal value of a digit run. -/
def digitsVal (ds : List Char) : ℕ :=
  ds.foldl (fun a c => a * 10 + (c.toNat - 48)) 0

/-- Optional fraction part of a JSON number. -/
def parseFrac (q : ℚ) (cs : List Char) : Option (ℚ × List Char) :=
  match cs with
  | '.' :: r =>
    let fs := r.takeWhile Char.isDigit
    if fs.isEmpty then Option.none
    else some (q + (digitsVal fs : ℚ) / (10 ^ fs.length : ℚ), r.drop fs.length)
  | _ => some (q, cs)

/-- Exponent digits (with optional sign) of a JSON number. -/
def parseExpTail (q : ℚ) (cs : List Char) : Option (ℚ × List Char) :=
  let (negE, r1) :=
    match cs with
    | '-' :: r => (true, r)
    | '+' :: r => (false, r)
    | _ => (false, cs)
  let es := r1.takeWhile Char.isDigit
  if es.isEmpty then Option.none
  else some (if negE then q / 10 ^ digitsVal es else q * 10 ^ digitsVal es, r1.drop es.length)

/-- Optional exponent part of a JSON number. -/
def parseExp (q : ℚ) (cs : List Char) : Option (ℚ × List Char) :=
  match cs with
  | 'e' :: r => parseExpTail q r
  | 'E' :: r => parseExpTail q r
  | _ => some (q, cs)

/-- A JSON number: optional minus, digits, optional fraction and exponent. -/
def parseNumber (cs : List Char) : Option (Json × List Char) :=
  let (neg, cs1) :=
    match cs with
    | '-' :: r => (true, r)
    | _ => (false, cs)
  let ds := cs1.takeWhile Char.isDigit
  if ds.isEmpty then Option.none
  else
    match parseFrac (digitsVal ds : ℚ) (cs1.drop ds.length) with
    | Option.none => Option.none
    | some (q1, cs2) =>
      match parseExp q1 cs2 with
      | Option.none => Option.none
      | some (q2, cs3) => some (.num (if neg then -q2 else q2), cs3)

mutual

/-- Recursive-descent JSON value (fuel-indexed; the fuel in `jsonLoads`
always suffices because each recursive step follows a consumed character). -/
def parseVal : ℕ → List Char → Option (Json × List Char)
| 0, _ => Option.none
| n + 1, cs =>
  match skipWs cs with
  | 'n' :: 'u' :: 'l' :: 'l' :: r => some (.null, r)
  | 't' :: 'r' :: 'u' :: 'e' :: r => some (.bool true, r)
  | 'f' :: 'a' :: 'l' :: 's' :: 'e' :: r => some (.bool false, r)
  | '\x22' :: r =>
    match parseStrAux [] r with
    | some (s, r2) => some (.str s, r2)
    | Option.none => Option.none
  | '[' :: r =>
    (match skipWs r with
     | ']' :: r2 => some (.arr [], r2)
     | r2 =>
       match parseVal n r2 with
       | some (v, r3) => parseArrRest n [v] r3
       | Option.none => Option.none)
  | '\x7b' :: r =>
    (match skipWs r with
     | '\x7d' :: r2 => some (.obj [], r2)
     | r2 =>
       match parseMember n r2 with
       | some (kv, r3) => parseObjRest n [kv] r3
       | Option.none => Option.none)
  | cs1 => parseNumber cs1

/-- One `"key": value` member of a JSON object. -/
def parseMember : ℕ → List Char → Option ((String × Json) × List Char)
| 0, _ => Option.none
| n + 1, cs =>
  match skipWs cs with
  | '\x22' :: r =>
    (match parseStrAux [] r with
     | some (k, r2) =>
       (match skipWs r2 with
        | ':' :: r3 =>
          match parseVal n r3 with
          | some (v, r4) => some ((k, v), r4)
          | Option.none => Option.none
        | _ => Option.none)
     | Option.none => Option.none)
  | _ => Option.none

/-- Remaining elements of a JSON array after the first. -/
def parseArrRest : ℕ → List Json → List Char → Option (Json × List Char)
| 0, _, _ => Option.none
| n + 1, acc, cs =>
  match skipWs cs with
  | ',' :: r =>
    (match parseVal n r with
     | some (v, r2) => parseArrRest n (acc ++ [v]) r2
     | Option.none => Option.none)
  | ']' :: r => some (.arr acc, r)
  | _ => Option.none

/-- Remaining members of a JSON object after the first. -/
def parseObjRest : ℕ → List (String × Json) → List Char → Option (Json × List Char)
| 0, _, _ => Option.none
| n + 1, acc, cs =>
  match skipWs cs with
  | ',' :: r =>
    (match parseMember n r with
     | some (kv, r2) => parseObjRest n (acc ++ [kv]) r2
     | Option.none => Option.none)
  | '\x7d' :: r => some (.obj acc, r)
  | _ => Option.none

end

/-- Model of `json.loads` on a request body string: the parsed value, or a
decode error.  (The exact `JSONDecodeError` message text is abstracted; no
claim depends on it.) -/
def jsonLoads (s : String) : Except String Json :=
  match parseVal (s.length + 2) s.data with
  | some (v, rest) => if (skipWs rest).isEmpty then .ok v else .error "Extra data"
  | Option.none => .error "Expecting value"

/-- A JSON field of the Lambda event: the key can be missing entirely, have
a null value, or hold a string.  (`event['k']` raises `KeyError` exactly
when the key is missing.) -/
inductive JField : Type
| missing
| null
| str (s : String)
deriving DecidableEq, Repr

/-- The Lambda event as far as the handler reads it: `routeKey` and `body`. -/
structure Event : Type where
  routeKey : JField
  body : JField
deriving DecidableEq, Repr

/-- The handler after the body has been parsed (`code/lambda_function.py`
lines 79-105): `body.get('x')`/`body.get('y')` (an `AttributeError` →
generic 500 when the parsed body is not a dict), then the `routeKey`
dispatch — `event['routeKey']` raises `KeyError` → 400 when the key is
missing, an unrecognised route gives 404 `Not Found` — and the regression
outcome is mapped by the handler's except-ladder. -/
def handlerCore (rk : JField) (body : Json) : Response :=
  match body with
  | .obj kvs =>
    let xv := getPy kvs "x"
    let yv := getPy kvs "y"
    match rk with
    | .missing => ⟨400, .error "'routeKey'"⟩
    | .null => ⟨404, .error "Not Found"⟩
    | .str s =>
      if s = "POST /linear" then handlerRespond (linear_regression xv yv)
      else if s = "POST /quadratic" then handlerRespond (quadratic_regression xv yv)
      else ⟨404, .error "Not Found"⟩
  | j => ⟨500, .error ("Internal Server Error: " ++ noAttrGetMsg j)⟩

/-- `json.loads` step of the handler.  A decode failure is answered with
400: `json.JSONDecodeError` is a subclass of `ValueError`, so it is caught
by the earlier `except (ValueError, KeyError)` clause (the dedicated
`except json.JSONDecodeError` clause below it is unreachable). -/
def handlerParse (rk : JField) (s : String) : Response :=
  match jsonLoads s with
  | .ok v => handlerCore rk v
  | .error m => ⟨400, .error m⟩

/-- The Lambda handler (`code/lambda_function.py` lines 68-134):
`body = json.loads(event['body'] or '{}')` — a missing `body` key raises
`KeyError('body')` → 400 with `str(e) = "'body'"`, a null or empty-string
body is replaced by the string `"{}"` — then `handlerParse`. -/
def handler (e : Event) : Response :=
  match e.body with
  | .missing => ⟨400, .error "'body'"⟩
  | .null => handlerParse e.routeKey "\x7b\x7d"
  | .str s => handlerParse e.routeKey (if s = "" then "\x7b\x7d" else s)

theorem polyval_specEval (c : List ℚ) (t : ℚ) : polyval c t = specEval c t := by
  induction c with
  | nil => simp [polyval, specEval]
  | cons a rest ih =>
    rw [polyval, ih]
    simp only [specEval, List.length_cons]
    rw [Finset.sum_range_succ']
    simp only [List.getD_cons_succ, List.getD_cons_zero, pow_zero, mul_one]
    rw [Finset.mul_sum]
    refine (add_comm _ _).trans (congrArg (· + a) ?_)
    exact Finset.sum_congr rfl fun k _ => by ring

theorem zipWith_residuals (f : ℚ → ℚ) (xs : List ℚ) :
    ∀ ys : List ℚ,
      List.zipWith (fun u v => (u - v) ^ 2) ys (xs.map f) =
        (xs.zip ys).map (fun p => (p.2 - f p.1) ^ 2) := by
  induction xs with
  | nil => intro ys; cases ys <;> simp
  | cons a rest ih => intro ys; cases ys <;> simp [ih]

theorem mse_eq_specMSE (c : List ℚ) (xs ys : List ℚ) (h : xs.length = ys.length) :
    mean_squared_error ys (xs.map (polyval c)) = specMSE c xs ys := by
  unfold mean_squared_error specMSE
  rw [zipWith_residuals, h]
  simp only [polyval_specEval]

theorem validate_ok_iff {xl yl : List PyVal} {p : List PyVal × List PyVal} :
    validate (.list xl) (.list yl) = .ok p ↔
      xl.all isinstance_int_float = true ∧ yl.all isinstance_int_float = true ∧
        xl.length = yl.length ∧ p = (xl, yl) := by
  constructor
  · intro h
    simp only [validate] at h
    split at h
    · exact absurd h (by simp)
    · split at h
      · exact absurd h (by simp)
      · rename_i hnum hlen
        obtain ⟨h1, h2⟩ := not_not.mp hnum
        refine ⟨h1, h2, not_ne_iff.mp hlen, ?_⟩
        injection h with h
        exact h.symm
  · rintro ⟨h1, h2, h3, rfl⟩
    simp [validate, h1, h2, h3]

theorem linear_regression_ok_elim {xl yl : List PyVal} {r : FitResult}
    (hge : 2 ≤ xl.length)
    (h : linear_regression (.list xl) (.list yl) = .ok r) :
    xl.length = yl.length ∧
      r.params = [(polyfit1 (xl.map toRat) (yl.map toRat)).2,
                  (polyfit1 (xl.map toRat) (yl.map toRat)).1] ∧
      r.mse = mean_squared_error (yl.map toRat) ((xl.map toRat).map (polyval r.params)) := by
  unfold linear_regression at h
  split at h
  · exact absurd h (by simp)
  · rename_i p xl' yl' heq
    obtain ⟨h1, h2, hlen, hp⟩ := validate_ok_iff.mp heq
    have hx : xl = xl' := (congrArg Prod.fst hp).symm
    have hy : yl = yl' := (congrArg Prod.snd hp).symm
    subst hx
    subst hy
    rw [if_neg (by omega)] at h
    by_cases hf : xl.all isFiniteNumber = true ∧ yl.all isFiniteNumber = true
    · rw [if_neg (not_not.mpr hf)] at h
      injection h with h
      subst h
      exact ⟨hlen, rfl, rfl⟩
    · rw [if_pos hf] at h
      exact absurd h (by simp)

theorem quadratic_regression_ok_elim {xl yl : List PyVal} {r : FitResult}
    (hge : 3 ≤ xl.length)
    (h : quadratic_regression (.list xl) (.list yl) = .ok r) :
    xl.length = yl.length ∧
      r.params = [(polyfit2 (xl.map toRat) (yl.map toRat)).2.2,
                  (polyfit2 (xl.map toRat) (yl.map toRat)).2.1,
                  (polyfit2 (xl.map toRat) (yl.map toRat)).1] ∧
      r.mse = mean_squared_error (yl.map toRat) ((xl.map toRat).map (polyval r.params)) := by
  unfold quadratic_regression at h
  split at h
  · exact absurd h (by simp)
  · rename_i p xl' yl' heq
    obtain ⟨h1, h2, hlen, hp⟩ := validate_ok_iff.mp heq
    have hx : xl = xl' := (congrArg Prod.fst hp).symm
    have hy : yl = yl' := (congrArg Prod.snd hp).symm
    subst hx
    subst hy
    rw [if_neg (by omega)] at h
    by_cases hf : xl.all isFiniteNumber = true ∧ yl.all isFiniteNumber = true
    · rw [if_neg (not_not.mpr hf)] at h
      injection h with h
      subst h
      exact ⟨hlen, rfl, rfl⟩
    · rw [if_pos hf] at h
      exact absurd h (by simp)

theorem linear_regression_eq_of_validate {xl yl : List PyVal}
    (h : validate (.list xl) (.list yl) = .ok (xl, yl)) :
    linear_regression (.list xl) (.list yl) =
      (if xl.length < 2 then .ok ⟨[0, 0], 0⟩
       else if ¬(xl.all isFiniteNumber = true ∧ yl.all isFiniteNumber = true) then
         .error (.runtimeError linearErrMsg)
       else
         let xs := xl.map toRat
         let ys := yl.map toRat
         let c := polyfit1 xs ys
         let params := [c.2, c.1]
         let y_predicted := xs.map (polyval params)
         .ok ⟨params, mean_squared_error ys y_predicted⟩) := by
  unfold linear_regression
  rw [h]

theorem quadratic_regression_eq_of_validate {xl yl : List PyVal}
    (h : validate (.list xl) (.list yl) = .ok (xl, yl)) :
    quadratic_regression (.list xl) (.list yl) =
      (if xl.length < 3 then .ok ⟨[0, 0, 0], 0⟩
       else if ¬(xl.all isFiniteNumber = true ∧ yl.all isFiniteNumber = true) then
         .error (.runtimeError quadraticErrMsg)
       else
         let xs := xl.map toRat
         let ys := yl.map toRat
         let c := polyfit2 xs ys
         let params := [c.2.2, c.2.1, c.1]
         let y_predicted := xs.map (polyval params)
         .ok ⟨params, mean_squared_error ys y_predicted⟩) := by
  unfold quadratic_regression
  rw [h]

theorem flaskRespond_eq_handlerRespond (o : Except PyError FitResult) :
    flaskRespond o = handlerRespond o := by
  cases o with
  | ok r => rfl
  | error e => cases e <;> rfl

theorem isFiniteNumber_imp_isinstance {v : PyVal} (h : isFiniteNumber v = true) :
    isinstance_int_float v = true := by
  cases v <;> simp_all [isFiniteNumber, isinstance_int_float]

/-- C9: for every successful (non-short-circuit) fit, the returned RMSE
equals `sqrt(mean((yᵢ − predictedᵢ)²))` over all samples, where
`predictedᵢ = Σ coefficients[k]·xᵢ^k` is computed from the returned
coefficient sequence read low-to-high degree. -/
theorem claim_C9_rmse_consistency :
    ∀ (xl yl : List PyVal) (r : FitResult),
      (2 ≤ xl.length → linear_regression (.list xl) (.list yl) = .ok r →
        r.mse = specMSE r.params (xl.map toRat) (yl.map toRat) ∧
        r.RMSE = Real.sqrt ((specMSE r.params (xl.map toRat) (yl.map toRat) : ℚ) : ℝ)) ∧
      (3 ≤ xl.length → quadratic_regression (.list xl) (.list yl) = .ok r →
        r.mse = specMSE r.params (xl.map toRat) (yl.map toRat) ∧
        r.RMSE = Real.sqrt ((specMSE r.params (xl.map toRat) (yl.map toRat) : ℚ) : ℝ)) := by
  intro xl yl r
  constructor
  · intro hge h
    obtain ⟨hlen, hparams, hmse⟩ := linear_regression_ok_elim hge h
    have hm : r.mse = specMSE r.params (xl.map toRat) (yl.map toRat) := by
      rw [hmse, mse_eq_specMSE _ _ _ (by simp [hlen])]
    exact ⟨hm, by rw [FitResult.RMSE, hm]⟩
  · intro hge h
    obtain ⟨hlen, hparams, hmse⟩ := quadratic_regression_ok_elim hge h
    have hm : r.mse = specMSE r.params (xl.map toRat) (yl.map toRat) := by
      rw [hmse, mse_eq_specMSE _ _ _ (by simp [hlen])]
    exact ⟨hm, by rw [FitResult.RMSE, hm]⟩

/-- C6: for every otherwise-valid input with fewer than 2 samples, `linear`
returns exactly `{params: [0, 0], RMSE: 0}` without attempting a fit; with
fewer than 3 samples `quadratic` returns exactly
`{params: [0, 0, 0], RMSE: 0}`; in both short-circuit cases the stored RMSE
is the literal 0 regardless of actual residuals. -/
theorem claim_C6_short_circuit :
    ∀ (xl yl : List PyVal),
      xl.all isinstance_int_float = true → yl.all isinstance_int_float = true →
      xl.length = yl.length →
      (xl.length < 2 → linear_regression (.list xl) (.list yl) = .ok ⟨[0, 0], 0⟩) ∧
      (xl.length < 3 → quadratic_regression (.list xl) (.list yl) = .ok ⟨[0, 0, 0], 0⟩) := by
  intro xl yl h1 h2 h3
  have hv : validate (.list xl) (.list yl) = .ok (xl, yl) :=
    validate_ok_iff.mpr ⟨h1, h2, h3, rfl⟩
  constructor
  · intro hlt
    unfold linear_regression
    rw [hv]
    simp [hlt]
  · intro hlt
    unfold quadratic_regression
    rw [hv]
    simp [hlt]

/-- C6 witness: a one-sample input takes both short circuits. -/
theorem claim_C6_witness :
    ([(.int 1 : PyVal)].all isinstance_int_float = true ∧
      [(.int 5 : PyVal)].all isinstance_int_float = true ∧
      ([(.int 1 : PyVal)].length = [(.int 5 : PyVal)].length) ∧
      [(.int 1 : PyVal)].length < 2 ∧ [(.int 1 : PyVal)].length < 3) ∧
    linear_regression (.list [.int 1]) (.list [.int 5]) = .ok ⟨[0, 0], 0⟩ ∧
    quadratic_regression (.list [.int 1]) (.list [.int 5]) = .ok ⟨[0, 0, 0], 0⟩ :=
  ⟨⟨rfl, rfl, rfl, by norm_num, by norm_num⟩,
    (claim_C6_short_circuit [.int 1] [.int 5] rfl rfl rfl).1 (by norm_num),
    (claim_C6_short_circuit [.int 1] [.int 5] rfl rfl rfl).2 (by norm_num)⟩

/-- C7 counterexample: the empty input passes validation with length 0
(taking the short-circuit), so the claimed invariant `length ≥ 1 after
validation` fails; neither entry point raises InvalidInput on it. -/
theorem claim_C7_counterexample :
    validate (.list ([] : List PyVal)) (.list ([] : List PyVal)) = .ok ([], []) ∧
    linear_regression (.list []) (.list []) = .ok ⟨[0, 0], 0⟩ ∧
    quadratic_regression (.list []) (.list []) = .ok ⟨[0, 0, 0], 0⟩ ∧
    ([] : List PyVal).length = 0 :=
  ⟨rfl, rfl, rfl, rfl⟩

/-- C7 (amended): every input that passes validation has x and y of equal
length — but the length may be 0 — and inputs with differing lengths fail
with InvalidInput at both entry points. -/
theorem claim_C7_amended :
    (∀ (x y : PyVal) (xs ys : List PyVal),
      validate x y = .ok (xs, ys) → xs.length = ys.length) ∧
    (∀ (xl yl : List PyVal),
      xl.all isinstance_int_float = true → yl.all isinstance_int_float = true →
      xl.length ≠ yl.length →
      linear_regression (.list xl) (.list yl) = .error (.valueError lengthMsg) ∧
      quadratic_regression (.list xl) (.list yl) = .error (.valueError lengthMsg)) := by
  constructor
  · intro x y xs ys h
    cases x <;> cases y <;>
      first
        | (obtain ⟨_, _, hlen, hp⟩ := validate_ok_iff.mp h
           have hx := congrArg Prod.fst hp
           have hy := congrArg Prod.snd hp
           simp only at hx hy
           rw [hx, hy]
           exact hlen)
        | (simp only [validate] at h; exact absurd h (by simp))
  · intro xl yl h1 h2 hne
    have hv : validate (.list xl) (.list yl) = .error (.valueError lengthMsg) := by
      simp [validate, h1, h2, hne]
    refine ⟨?_, ?_⟩
    · unfold linear_regression
      rw [hv]
    · unfold quadratic_regression
      rw [hv]

/-- C7 witness: a validated singleton pair has equal lengths, and a 2-vs-1
length mismatch is rejected with the length ValueError by both entry
points. -/
theorem claim_C7_witness :
    (validate (.list [.int 1]) (.list [.int 1]) = .ok ([.int 1], [.int 1]) ∧
      [(.int 1 : PyVal)].length = [(.int 1 : PyVal)].length) ∧
    ([(.int 1 : PyVal), .int 2].all isinstance_int_float = true ∧
      [(.int 3 : PyVal)].all isinstance_int_float = true ∧
      [(.int 1 : PyVal), .int 2].length ≠ [(.int 3 : PyVal)].length) ∧
    linear_regression (.list [.int 1, .int 2]) (.list [.int 3]) =
      .error (.valueError lengthMsg) ∧
    quadratic_regression (.list [.int 1, .int 2]) (.list [.int 3]) =
      .error (.valueError lengthMsg) :=
  ⟨⟨rfl, claim_C7_amended.1 (.list [.int 1]) (.list [.int 1]) [.int 1] [.int 1] rfl⟩,
    ⟨rfl, rfl, by norm_num⟩,
    (claim_C7_amended.2 [.int 1, .int 2] [.int 3] rfl rfl (by norm_num)).1,
    (claim_C7_amended.2 [.int 1, .int 2] [.int 3] rfl rfl (by norm_num)).2⟩

/-- C10: in the Flask adapter, every request whose body parses to a falsy
JSON value — including the empty object — is answered with status 400 and
the `Request body must be JSON` message, before the missing-field check or
the validator can run. -/
theorem claim_C10_falsy_body :
    ∀ d : Json, d.falsy = true →
      linear d = ⟨400, .error bodyJsonMsg⟩ ∧
      quadratic d = ⟨400, .error bodyJsonMsg⟩ := by
  intro d h
  constructor
  · unfold linear
    rw [if_pos h]
  · unfold quadratic
    rw [if_pos h]

/-- C10 witness: the empty JSON object body is falsy and both routes answer
400 `Request body must be JSON` on it. -/
theorem claim_C10_witness :
    (Json.obj []).falsy = true ∧
    linear (Json.obj []) = ⟨400, .error bodyJsonMsg⟩ ∧
    quadratic (Json.obj []) = ⟨400, .error bodyJsonMsg⟩ :=
  ⟨rfl, (claim_C10_falsy_body (Json.obj []) rfl).1, (claim_C10_falsy_body (Json.obj []) rfl).2⟩

/-- C3 counterexample: booleans pass validation (Python's `bool` is a
subclass of `int`) and the fit succeeds on them, and a NaN element passes
validation and produces a RuntimeError (ComputationError), so neither input
fails with InvalidInput as the claim states. -/
theorem claim_C3_counterexample :
    linear_regression (.list [.bool true, .bool false]) (.list [.int 1, .int 0]) =
      .ok ⟨[1, 0], 1/2⟩ ∧
    quadratic_regression (.list [.int 0, .int 1, .int 2])
        (.list [.bool true, .bool false, .bool true]) =
      .ok ⟨[1, -2, 1], 0⟩ ∧
    linear_regression (.list [.float .nan, .int 1]) (.list [.int 1, .int 2]) =
      .error (.runtimeError linearErrMsg) := by
  refine ⟨?_, ?_, ?_⟩
  · norm_num [linear_regression, validate, isinstance_int_float, isFiniteNumber, toRat,
      polyfit1, allEqual, polyval, mean_squared_error]
  · norm_num [quadratic_regression, validate, isinstance_int_float, isFiniteNumber, toRat,
      polyfit2, det3, distinctVals, meanAt, polyval, mean_squared_error]
  · norm_num [linear_regression, validate, isinstance_int_float, isFiniteNumber]

/-- C3 (amended): elements that are strings, null, lists or dicts fail with
InvalidInput at both entry points; booleans are accepted as numbers (bool
is a subclass of int), as are ints, finite floats, and the non-finite
float values NaN/inf — the latter pass validation and, when enough samples
are present to attempt a fit, produce ComputationError instead of
InvalidInput. -/
theorem claim_C3_amended :
    (∀ (xl yl : List PyVal) (v : PyVal), (v ∈ xl ∨ v ∈ yl) →
      isinstance_int_float v = false →
      linear_regression (.list xl) (.list yl) = .error (.valueError numbersMsg) ∧
      quadratic_regression (.list xl) (.list yl) = .error (.valueError numbersMsg)) ∧
    (∀ (b : Bool) (n : ℤ) (q : ℚ),
      isinstance_int_float (.bool b) = true ∧ isinstance_int_float (.int n) = true ∧
      isinstance_int_float (.float (.finite q)) = true ∧
      isinstance_int_float (.float .nan) = true ∧
      isinstance_int_float (.float .inf) = true ∧
      isinstance_int_float (.str "") = false ∧ isinstance_int_float .none = false) ∧
    (∀ (xl yl : List PyVal) (v : PyVal),
      xl.all isinstance_int_float = true → yl.all isinstance_int_float = true →
      xl.length = yl.length → (v ∈ xl ∨ v ∈ yl) → isFiniteNumber v = false →
      (2 ≤ xl.length →
        linear_regression (.list xl) (.list yl) = .error (.runtimeError linearErrMsg)) ∧
      (3 ≤ xl.length →
        quadratic_regression (.list xl) (.list yl) = .error (.runtimeError quadraticErrMsg))) := by
  refine ⟨?_, ?_, ?_⟩
  · intro xl yl v hv hbad
    have hna : ¬(xl.all isinstance_int_float = true ∧ yl.all isinstance_int_float = true) := by
      rcases hv with hm | hm
      · rintro ⟨ha, -⟩
        rw [List.all_eq_true] at ha
        have := ha v hm
        simp [hbad] at this
      · rintro ⟨-, hb⟩
        rw [List.all_eq_true] at hb
        have := hb v hm
        simp [hbad] at this
    have hval : validate (.list xl) (.list yl) = .error (.valueError numbersMsg) := by
      simp only [validate]
      rw [if_pos hna]
    constructor
    · unfold linear_regression
      rw [hval]
    · unfold quadratic_regression
      rw [hval]
  · intro b n q
    refine ⟨by cases b <;> rfl, rfl, rfl, rfl, rfl, rfl, rfl⟩
  · intro xl yl v h1 h2 h3 hv hbad
    have hval : validate (.list xl) (.list yl) = .ok (xl, yl) :=
      validate_ok_iff.mpr ⟨h1, h2, h3, rfl⟩
    have hnf : ¬(xl.all isFiniteNumber = true ∧ yl.all isFiniteNumber = true) := by
      rcases hv with hm | hm
      · rintro ⟨ha, -⟩
        rw [List.all_eq_true] at ha
        have := ha v hm
        simp [hbad] at this
      · rintro ⟨-, hb⟩
        rw [List.all_eq_true] at hb
        have := hb v hm
        simp [hbad] at this
    constructor
    · intro hge
      rw [linear_regression_eq_of_validate hval,
        if_neg (show ¬ xl.length < 2 by omega), if_pos hnf]
    · intro hge
      rw [quadratic_regression_eq_of_validate hval,
        if_neg (show ¬ xl.length < 3 by omega), if_pos hnf]

/-- C3 witness: the amended statement instantiated — a string element is
rejected as InvalidInput, a NaN element with enough samples yields
ComputationError. -/
theorem claim_C3_witness :
    ((.str "a" : PyVal) ∈ [(.str "a" : PyVal)] ∧
      isinstance_int_float (.str "a") = false ∧
      linear_regression (.list [.str "a"]) (.list [.int 1]) =
        .error (.valueError numbersMsg) ∧
      quadratic_regression (.list [.str "a"]) (.list [.int 1]) =
        .error (.valueError numbersMsg)) ∧
    ((.float .nan : PyVal) ∈ [(.float .nan : PyVal), .int 1, .int 2] ∧
      isFiniteNumber (.float .nan) = false ∧
      linear_regression (.list [.float .nan, .int 1, .int 2]) (.list [.int 1, .int 2, .int 3]) =
        .error (.runtimeError linearErrMsg) ∧
      quadratic_regression (.list [.float .nan, .int 1, .int 2]) (.list [.int 1, .int 2, .int 3]) =
        .error (.runtimeError quadraticErrMsg)) :=
  ⟨⟨by simp, rfl,
    (claim_C3_amended.1 [.str "a"] [.int 1] (.str "a") (Or.inl (by simp)) rfl).1,
    (claim_C3_amended.1 [.str "a"] [.int 1] (.str "a") (Or.inl (by simp)) rfl).2⟩,
   ⟨by simp, rfl,
    (claim_C3_amended.2.2 [.float .nan, .int 1, .int 2] [.int 1, .int 2, .int 3] (.float .nan)
      rfl rfl rfl (Or.inl (by simp)) rfl).1 (by norm_num),
    (claim_C3_amended.2.2 [.float .nan, .int 1, .int 2] [.int 1, .int 2, .int 3] (.float .nan)
      rfl rfl rfl (Or.inl (by simp)) rfl).2 (by norm_num)⟩⟩

/-- C4 counterexample: with all x-values identical and 2 samples, `linear`
does not raise — numpy's polyfit resolves the singular system by
minimum-norm least squares (warning only) and the call returns a result. -/
theorem claim_C4_counterexample :
    linear_regression (.list [.int 1, .int 1]) (.list [.int 0, .int 2]) =
      .ok ⟨[1/2, 1/2], 1⟩ := by
  norm_num [linear_regression, validate, isinstance_int_float, isFiniteNumber, toRat,
    polyfit1, allEqual, polyval, mean_squared_error]

/-- C4 (amended): for every valid sample set of at least 2 finite samples
whose x-values are all identical, `linear` succeeds (numpy's polyfit only
emits a RankWarning on the singular normal-equations system and returns
its minimum-norm solution); no ComputationError is raised. -/
theorem claim_C4_amended :
    ∀ (xl yl : List PyVal),
      xl.all isFiniteNumber = true → yl.all isFiniteNumber = true →
      xl.length = yl.length → 2 ≤ xl.length →
      allEqual (xl.map toRat) = true →
      fitIsOk (linear_regression (.list xl) (.list yl)) = true := by
  intro xl yl hf1 hf2 hlen hge hall
  have h1 : xl.all isinstance_int_float = true := by
    rw [List.all_eq_true] at hf1 ⊢
    exact fun v hv => isFiniteNumber_imp_isinstance (hf1 v hv)
  have h2 : yl.all isinstance_int_float = true := by
    rw [List.all_eq_true] at hf2 ⊢
    exact fun v hv => isFiniteNumber_imp_isinstance (hf2 v hv)
  have hv : validate (.list xl) (.list yl) = .ok (xl, yl) :=
    validate_ok_iff.mpr ⟨h1, h2, hlen, rfl⟩
  rw [linear_regression_eq_of_validate hv, if_neg (show ¬ xl.length < 2 by omega),
    if_neg (not_not.mpr ⟨hf1, hf2⟩)]
  rfl

/-- C4 witness: the amended statement at x=[1,1], y=[0,2]. -/
theorem claim_C4_witness :
    ([(.int 1 : PyVal), .int 1].all isFiniteNumber = true ∧
      [(.int 0 : PyVal), .int 2].all isFiniteNumber = true ∧
      [(.int 1 : PyVal), .int 1].length = [(.int 0 : PyVal), .int 2].length ∧
      2 ≤ [(.int 1 : PyVal), .int 1].length ∧
      allEqual ([(.int 1 : PyVal), .int 1].map toRat) = true) ∧
    fitIsOk (linear_regression (.list [.int 1, .int 1]) (.list [.int 0, .int 2])) = true :=
  ⟨⟨rfl, rfl, rfl, by norm_num, by norm_num [allEqual, toRat]⟩,
    claim_C4_amended [.int 1, .int 1] [.int 0, .int 2] rfl rfl rfl (by norm_num)
      (by norm_num [allEqual, toRat])⟩

/-- C5 counterexample: on the same empty-object payload the Flask route
answers 400 `Request body must be JSON` while the event handler answers 400
with the ValueError message from the regression core — same status, but
the response dicts (hence the serialised JSON bodies) differ. -/
theorem claim_C5_counterexample :
    linear (Json.obj []) = ⟨400, .error bodyJsonMsg⟩ ∧
    handler ⟨.str "POST /linear", .str "\x7b\x7d"⟩ = ⟨400, .error listsMsg⟩ ∧
    Payload.error bodyJsonMsg ≠ Payload.error listsMsg := by
  refine ⟨rfl, rfl, by decide⟩

/-- C5 (amended): the two front ends agree on status code and response
dict whenever the payload is a JSON object carrying non-null `x` and `y`;
byte-identity of the serialised bodies fails in general (the Flask
serialiser differs from `json.dumps`, and payloads without usable x/y get
different error messages, as the counterexample shows). -/
theorem claim_C5_amended :
    ∀ kvs : List (String × Json),
      (getPy kvs "x").isNone = false → (getPy kvs "y").isNone = false →
      linear (Json.obj kvs) = handlerCore (.str "POST /linear") (Json.obj kvs) ∧
      quadratic (Json.obj kvs) = handlerCore (.str "POST /quadratic") (Json.obj kvs) := by
  intro kvs hx hy
  have hfal : (Json.obj kvs).falsy = false := by
    cases kvs with
    | nil => simp [getPy, PyVal.isNone] at hx
    | cons a t => simp [Json.falsy]
  constructor
  · simp [linear, handlerCore, hfal, hx, hy, flaskRespond_eq_handlerRespond]
  · simp [quadratic, handlerCore, hfal, hx, hy, flaskRespond_eq_handlerRespond]

/-- C5 witness: the amended statement at the payload
`{"x": [1, 2], "y": [1, 2]}`. -/
theorem claim_C5_witness :
    ((getPy [("x", Json.arr [Json.num 1, Json.num 2]),
             ("y", Json.arr [Json.num 1, Json.num 2])] "x").isNone = false ∧
     (getPy [("x", Json.arr [Json.num 1, Json.num 2]),
             ("y", Json.arr [Json.num 1, Json.num 2])] "y").isNone = false) ∧
    linear (Json.obj [("x", Json.arr [Json.num 1, Json.num 2]),
                      ("y", Json.arr [Json.num 1, Json.num 2])]) =
      handlerCore (.str "POST /linear")
        (Json.obj [("x", Json.arr [Json.num 1, Json.num 2]),
                   ("y", Json.arr [Json.num 1, Json.num 2])]) ∧
    quadratic (Json.obj [("x", Json.arr [Json.num 1, Json.num 2]),
                         ("y", Json.arr [Json.num 1, Json.num 2])]) =
      handlerCore (.str "POST /quadratic")
        (Json.obj [("x", Json.arr [Json.num 1, Json.num 2]),
                   ("y", Json.arr [Json.num 1, Json.num 2])]) :=
  ⟨⟨by simp [getPy, List.lookup, jsonToPyVal, PyVal.isNone],
    by simp [getPy, List.lookup, jsonToPyVal, PyVal.isNone]⟩,
   (claim_C5_amended _
     (by simp [getPy, List.lookup, jsonToPyVal, PyVal.isNone])
     (by simp [getPy, List.lookup, jsonToPyVal, PyVal.isNone])).1,
   (claim_C5_amended _
     (by simp [getPy, List.lookup, jsonToPyVal, PyVal.isNone])
     (by simp [getPy, List.lookup, jsonToPyVal, PyVal.isNone])).2⟩

/-- C8 counterexample: an event with no `body` key is not treated as the
empty object — `event['body']` raises `KeyError` and the handler answers
400 with the KeyError message, a different response body than the one
produced for the body string `"\x7b\x7d"`. -/
theorem claim_C8_counterexample :
    handler ⟨.str "POST /quadratic", .missing⟩ = ⟨400, .error "'body'"⟩ ∧
    handler ⟨.str "POST /quadratic", .str "\x7b\x7d"⟩ = ⟨400, .error listsMsg⟩ ∧
    Payload.error "'body'" ≠ Payload.error listsMsg := by
  refine ⟨rfl, rfl, by decide⟩

/-- C8 (amended): a null or empty-string body is treated exactly like the
body string `"\x7b\x7d"` (same response, status and body alike); an event
whose `body` key is missing instead gets 400 with the `KeyError` message. -/
theorem claim_C8_amended :
    (∀ rk : JField, handler ⟨rk, .null⟩ = handler ⟨rk, .str "\x7b\x7d"⟩) ∧
    (∀ rk : JField, handler ⟨rk, .str ""⟩ = handler ⟨rk, .str "\x7b\x7d"⟩) ∧
    (∀ rk : JField, handler ⟨rk, .missing⟩ = ⟨400, .error "'body'"⟩) :=
  ⟨fun _ => rfl, fun _ => rfl, fun _ => rfl⟩

/-- C1: at the spec's own fixture x=[1,2,3], y=[2,4,6] the code returns
params = [2, 0] with RMSE = sqrt(20/3) ≠ 0 — not the claimed ≈[0, 2] with
RMSE ≈ 0.  The underlying numpy fit is correct (`polyfit1` returns
intercept 0, slope 2 low-to-high), and read intercept-first the true
minimiser [0, 2] has zero residual while the returned [2, 0] has mean
squared residual 20/3: the code unpacks numpy's low-to-high coefficients
as if they were high-to-low, contradicting its own docstring
`p0: intercept, p1: slope`. -/
theorem claim_C1_coefficient_swap :
    linear_regression (.list [.int 1, .int 2, .int 3]) (.list [.int 2, .int 4, .int 6]) =
      .ok ⟨[2, 0], 20/3⟩ ∧
    polyfit1 [1, 2, 3] [2, 4, 6] = (0, 2) ∧
    specMSE [0, 2] [1, 2, 3] [2, 4, 6] = 0 ∧
    specMSE [2, 0] [1, 2, 3] [2, 4, 6] = 20/3 ∧
    FitResult.RMSE ⟨[2, 0], 20/3⟩ ≠ 0 := by
  refine ⟨?_, ?_, ?_, ?_, ?_⟩
  · norm_num [linear_regression, validate, isinstance_int_float, isFiniteNumber, toRat,
      polyfit1, allEqual, polyval, mean_squared_error]
  · norm_num [polyfit1, allEqual]
  · norm_num [specMSE, specEval, Finset.sum_range_succ]
  · norm_num [specMSE, specEval, Finset.sum_range_succ]
  · rw [FitResult.RMSE]
    exact Real.sqrt_ne_zero'.mpr (by norm_num)

/-- C2: the returned coefficient sequences do have length degree+1, but
they are ordered high-to-low, not intercept-first: the degree-1 fit of
x=[1,2], y=[1,3] is intercept −1, slope 2 (`polyfit1` low-to-high), yet
the code returns [2, −1]; the degree-2 fit of x=[0,1,2], y=[0,1,4] is
(0, 0, 1) low-to-high, yet the code returns [1, 0, 0]. -/
theorem claim_C2_order_reversed :
    linear_regression (.list [.int 1, .int 2]) (.list [.int 1, .int 3]) =
      .ok ⟨[2, -1], 9/2⟩ ∧
    polyfit1 [1, 2] [1, 3] = (-1, 2) ∧
    quadratic_regression (.list [.int 0, .int 1, .int 2]) (.list [.int 0, .int 1, .int 4]) =
      .ok ⟨[1, 0, 0], 10/3⟩ ∧
    polyfit2 [0, 1, 2] [0, 1, 4] = (0, 0, 1) := by
  refine ⟨?_, ?_, ?_, ?_⟩
  · norm_num [linear_regression, validate, isinstance_int_float, isFiniteNumber, toRat,
      polyfit1, allEqual, polyval, mean_squared_error]
  · norm_num [polyfit1, allEqual]
  · norm_num [quadratic_regression, validate, isinstance_int_float, isFiniteNumber, toRat,
      polyfit2, det3, distinctVals, meanAt, polyval, mean_squared_error]
  · norm_num [polyfit2, det3, distinctVals, meanAt]

/-- C9 witness: the RMSE consistency instantiated at the concrete linear
fit x=[1,2,3], y=[2,4,6] and quadratic fit x=[0,1,2], y=[0,1,4]. -/
theorem claim_C9_witness :
    linear_regression (.list [.int 1, .int 2, .int 3]) (.list [.int 2, .int 4, .int 6]) =
      .ok ⟨[2, 0], 20/3⟩ ∧
    (⟨[2, 0], 20/3⟩ : FitResult).mse =
      specMSE [2, 0] ([(.int 1 : PyVal), .int 2, .int 3].map toRat)
        ([(.int 2 : PyVal), .int 4, .int 6].map toRat) ∧
    quadratic_regression (.list [.int 0, .int 1, .int 2]) (.list [.int 0, .int 1, .int 4]) =
      .ok ⟨[1, 0, 0], 10/3⟩ ∧
    (⟨[1, 0, 0], 10/3⟩ : FitResult).mse =
      specMSE [1, 0, 0] ([(.int 0 : PyVal), .int 1, .int 2].map toRat)
        ([(.int 0 : PyVal), .int 1, .int 4].map toRat) := by
  have e1 : linear_regression (.list [.int 1, .int 2, .int 3]) (.list [.int 2, .int 4, .int 6]) =
      .ok ⟨[2, 0], 20/3⟩ := by
    norm_num [linear_regression, validate, isinstance_int_float, isFiniteNumber, toRat,
      polyfit1, allEqual, polyval, mean_squared_error]
  have e2 : quadratic_regression (.list [.int 0, .int 1, .int 2])
      (.list [.int 0, .int 1, .int 4]) = .ok ⟨[1, 0, 0], 10/3⟩ := by
    norm_num [quadratic_regression, validate, isinstance_int_float, isFiniteNumber, toRat,
      polyfit2, det3, distinctVals, meanAt, polyval, mean_squared_error]
  exact ⟨e1,
    ((claim_C9_rmse_consistency [.int 1, .int 2, .int 3] [.int 2, .int 4, .int 6]
      ⟨[2, 0], 20/3⟩).1 (by norm_num) e1).1,
    e2,
    ((claim_C9_rmse_consistency [.int 0, .int 1, .int 2] [.int 0, .int 1, .int 4]
      ⟨[1, 0, 0], 10/3⟩).2 (by norm_num) e2).1⟩

end RegressionApp
